import Mathlib

/-!
# Verification of the JWT bearer-token authentication core

A shallow embedding of `src/services/ai-chat/app/middleware/auth.py`,
`src/services/ai-chat/app/config.py` and
`src/services/ai-chat/app/models/user.py`.

Modelling conventions:

* Python dictionaries keyed by strings (the JWKS cache) are insertion-ordered
  association lists; assignment updates in place or appends.
* Token bodies are records of the standard claim fields with `Option` marking
  absence, matching the RawClaims data model (string claims, string-list
  claims, epoch-second integer claims).
* Cryptography is abstracted: a JWK whose material converts successfully is
  tagged with the PEM string `RSAAlgorithm.from_jwk` would return, and a
  well-formed token records the PEM of the public key matching the private
  key that produced its signature (`none` when the signature matches no key).
* `datetime.fromtimestamp` is modelled as the identity on epoch seconds.
* The single network fetch a call may perform is an oracle argument
  (`FetchResult`), and each call reports how many HTTP fetches it performed.
* Python exceptions are values of `PyExc`; the `try/except` chain of
  `get_current_user` is the total dispatch function `dispatchExc`.
  `fastapi.HTTPException` subclasses `Exception` and none of the earlier
  `except` clauses, so an `HTTPException` raised inside the `try` block is
  caught by the final `except Exception` clause.
* Accessing an attribute that is not a declared field of a pydantic model
  raises `AttributeError`; `Settings.getattrStr` models this lookup over the
  declared string fields of `Settings`.
-/

namespace AuthCore

/-- Application settings (`config.py`, class `Settings`).  Field names and
defaults follow the source.  Note the Azure AD client id field is declared as
`azure_ad_client_id`; no field named `azure_client_id` exists. -/
structure Settings where
  app_name : String := "AI Chat Service"
  environment : String := "dev"
  debug : Bool := false
  log_level : String := "info"
  api_version : String := "v1"
  azure_ad_tenant_id : String := ""
  azure_ad_client_id : String := ""
  skip_token_verification : Bool := false
  azure_openai_endpoint : String := ""
  azure_openai_deployment_name : String := "gpt-4o-mini"
  deriving Repr, DecidableEq

/-- Model of `Settings.get_issuer` (config.py lines 32-34). -/
def Settings.get_issuer (s : Settings) : String :=
  "https://login.microsoftonline.com/" ++ s.azure_ad_tenant_id ++ "/v2.0"

/-- Model of `Settings.get_issuer_v1` (config.py lines 36-38). -/
def Settings.get_issuer_v1 (s : Settings) : String :=
  "https://sts.windows.net/" ++ s.azure_ad_tenant_id ++ "/"

/-- Model of `Settings.get_jwks_url` (config.py lines 40-42). -/
def Settings.get_jwks_url (s : Settings) : String :=
  "https://login.microsoftonline.com/" ++ s.azure_ad_tenant_id ++ "/discovery/v2.0/keys"

/-- Pydantic attribute lookup on a `Settings` instance, restricted to the
string-valued declared fields.  Reading any name that is not a declared field
of the model raises `AttributeError` (pydantic `BaseModel.__getattr__`); in
particular `azure_client_id` is NOT declared, only `azure_ad_client_id` is. -/
def Settings.getattrStr (s : Settings) : String → Option String
  | "app_name" => some s.app_name
  | "environment" => some s.environment
  | "log_level" => some s.log_level
  | "api_version" => some s.api_version
  | "azure_ad_tenant_id" => some s.azure_ad_tenant_id
  | "azure_ad_client_id" => some s.azure_ad_client_id
  | "azure_openai_endpoint" => some s.azure_openai_endpoint
  | "azure_openai_deployment_name" => some s.azure_openai_deployment_name
  | _ => none

/-- Decoded token body: the RawClaims mapping restricted to the claim names
the pipeline reads, with `Option` marking absence of the claim.  Claim values
carry the types of the RawClaims data model (strings, string lists, epoch
seconds). -/
structure Claims where
  oid : Option String := none
  email : Option String := none
  preferred_username : Option String := none
  name : Option String := none
  tid : Option String := none
  roles : Option (List String) := none
  groups : Option (List String) := none
  aud : Option String := none
  iss : Option String := none
  iat : Option Int := none
  exp : Option Int := none
  deriving Repr, DecidableEq

/-- Model of `User` (models/user.py lines 6-17).  The two `datetime` fields are
modelled by their epoch-second values. -/
structure User where
  id : String
  email : String
  name : String
  preferred_username : String
  tenant_id : String
  roles : List String := []
  groups : List String := []
  issued_at : Int
  expires_at : Int
  deriving Repr, DecidableEq

/-- Model of `UserClaims` (models/user.py lines 20-33). -/
structure UserClaims where
  oid : String
  email : Option String := none
  preferred_username : Option String := none
  name : Option String := none
  tid : String
  roles : List String := []
  groups : List String := []
  aud : String
  iss : String
  iat : Int
  exp : Int
  deriving Repr, DecidableEq

/-- Python `a or b` on an optional string: `None` and `""` are falsy. -/
def pyOrStr (a : Option String) (fallback : String) : String :=
  match a with
  | some s => if s = "" then fallback else s
  | none => fallback

/-- Model of `UserClaims.to_user` (models/user.py lines 35-47).
`datetime.fromtimestamp` is the identity on the epoch-second value. -/
def UserClaims.to_user (c : UserClaims) : User :=
  { id := c.oid
    email := pyOrStr c.email (pyOrStr c.preferred_username "")
    name := pyOrStr c.name ""
    preferred_username := pyOrStr c.preferred_username ""
    tenant_id := c.tid
    roles := c.roles
    groups := c.groups
    issued_at := c.iat
    expires_at := c.exp }

/-- Construction of `UserClaims` from the decoded claims dictionary
(auth.py lines 137-149): each field is `decoded.get(name, default)`. -/
def mkUserClaims (d : Claims) : UserClaims :=
  { oid := d.oid.getD "unknown"
    email := d.email
    preferred_username := d.preferred_username
    name := d.name
    tid := d.tid.getD "unknown"
    roles := d.roles.getD []
    groups := d.groups.getD []
    aud := d.aud.getD ""
    iss := d.iss.getD ""
    iat := d.iat.getD 0
    exp := d.exp.getD 0 }

/-- A JWK entry as published by the authority.  `material = some pem` means
`RSAAlgorithm.from_jwk` converts the key material to the usable public key
`pem`; `material = none` means conversion raises `InvalidKeyError`. -/
structure Jwk where
  kid : Option String := none
  kty : String := "RSA"
  material : Option String := none
  deriving Repr, DecidableEq

/-- The module-level JWKS cache `_jwks_cache` (auth.py line 17): a Python
dict from kid to JWK, modelled as an insertion-ordered association list. -/
abbrev Cache := List (String × Jwk)

/-- Python dict assignment `d[k] = v`: update in place, else append. -/
def dictInsert (c : Cache) (k : String) (v : Jwk) : Cache :=
  match c with
  | [] => [(k, v)]
  | (k0, v0) :: rest =>
      if k0 = k then (k, v) :: rest else (k0, v0) :: dictInsert rest k v

/-- Python `d.get(k)`. -/
def dictGet (c : Cache) (k : String) : Option Jwk :=
  match c with
  | [] => none
  | (k0, v0) :: rest => if k0 = k then some v0 else dictGet rest k

/-- One entry of the fetched payload `keys` list.  A `nonDict` entry is a
JSON value that is not an object, on which `key.get("kid")` raises
`AttributeError`. -/
inductive JwkEntry where
  | obj (j : Jwk)
  | nonDict
  deriving Repr, DecidableEq

/-- Outcome of the single HTTPS GET a cache-refresh performs (auth.py lines
28-31): the request itself may raise (`httpx` network error),
`raise_for_status` may raise on a non-success status, `response.json()` may
raise on a malformed body, or a parsed `keys` list is obtained (a payload
with no `keys` member yields the empty list via `jwks.get("keys", [])`). -/
inductive FetchResult where
  | networkError
  | statusError
  | malformedJson
  | ok (entries : List JwkEntry)
  deriving Repr, DecidableEq

/-- Python exceptions reaching the `except` chain of `get_current_user`. -/
inductive PyExc where
  /-- Models `jwt.ExpiredSignatureError` -/
  | expiredSignature
  /-- Models `jwt.InvalidAudienceError` -/
  | invalidAudience
  /-- Models `jwt.InvalidTokenError` (including its subclass `jwt.DecodeError`),
  carrying `str(e)` -/
  | invalidToken (msg : String)
  /-- Models `httpx.HTTPError` -/
  | httpxError
  /-- Models `fastapi.HTTPException`, carrying status code and detail -/
  | httpException (code : Nat) (detail : String)
  /-- Models `AttributeError`, carrying `str(e)` -/
  | attributeError (msg : String)
  /-- Models `ValueError` from `response.json()` on a malformed body -/
  | valueError
  /-- Models `jwt.exceptions.InvalidKeyError` from `RSAAlgorithm.from_jwk` -/
  | invalidKey
  deriving Repr, DecidableEq

/-- Value of `str(e)` for the exceptions the catch-all handler can wrap.  The
`AttributeError`, `ValueError` and `InvalidKeyError` texts are the library
messages; `str` of a starlette `HTTPException` is `"{code}: {detail}"`. -/
def PyExc.str : PyExc → String
  | .expiredSignature => "Signature has expired"
  | .invalidAudience => "Audience doesn\x27t match"
  | .invalidToken msg => msg
  | .httpxError => "httpx error"
  | .httpException code detail => toString code ++ ": " ++ detail
  | .attributeError msg => msg
  | .valueError => "Expecting value: line 1 column 1 (char 0)"
  | .invalidKey => "Invalid key"

/-- Message of the `AttributeError` raised when `settings.azure_client_id`
is read on a pydantic model that declares no such field. -/
def settingsAttrMsg : String :=
  "\x27Settings\x27 object has no attribute \x27azure_client_id\x27"

/-- Message of the `AttributeError` raised by `key.get("kid")` when an entry
of the fetched `keys` list is a string rather than an object. -/
def strGetAttrMsg : String := "\x27str\x27 object has no attribute \x27get\x27"

/-- A bearer token.  `malformed` covers every syntactically invalid token
(missing segment, bad encoding), carrying the `jwt.DecodeError` message;
`wellFormed` carries the decoded header `kid`, the decoded body, and the PEM
of the public key matching the signing private key (`none` when the
signature matches no key). -/
inductive Token where
  | malformed (msg : String)
  | wellFormed (kid : Option String) (body : Claims) (sigKey : Option String)
  deriving Repr, DecidableEq

/-- Result of a call to `get_jwks`: the returned value or raised exception,
the state of the module-level cache after the call, and the number of HTTP
fetches the call performed. -/
structure JwksCall where
  result : Except PyExc Cache
  cache : Cache
  fetches : Nat
  deriving Repr

/-- The caching loop of `get_jwks` (auth.py lines 34-37): index each entry
under its `kid` when that is a non-empty string (`if kid:`), skipping
entries without one; mutation is in place, so a `nonDict` entry aborts the
loop with `AttributeError`, leaving the entries already processed in the
cache (returned in the `.error` case). -/
def cacheKeys (c : Cache) : List JwkEntry → Except Cache Cache
  | [] => Except.ok c
  | JwkEntry.nonDict :: _ => Except.error c
  | JwkEntry.obj j :: rest =>
      match j.kid with
      | some kid => if kid = "" then cacheKeys c rest else cacheKeys (dictInsert c kid j) rest
      | none => cacheKeys c rest

/-- Model of `get_jwks` (auth.py lines 20-40): return the cache if it is non-empty
(`if _jwks_cache:`); otherwise perform one fetch and index the result. -/
def get_jwks (cache : Cache) (fetch : FetchResult) : JwksCall :=
  if cache.isEmpty then
    match fetch with
    | .networkError => ⟨Except.error PyExc.httpxError, cache, 1⟩
    | .statusError => ⟨Except.error PyExc.httpxError, cache, 1⟩
    | .malformedJson => ⟨Except.error PyExc.valueError, cache, 1⟩
    | .ok entries =>
        match cacheKeys cache entries with
        | Except.ok c2 => ⟨Except.ok c2, c2, 1⟩
        | Except.error sofar => ⟨Except.error (PyExc.attributeError strGetAttrMsg), sofar, 1⟩
  else ⟨Except.ok cache, cache, 0⟩

/-- Model of `RSAAlgorithm.from_jwk` (auth.py line 64). -/
def from_jwk (j : Jwk) : Except PyExc String :=
  match j.material with
  | some pem => Except.ok pem
  | none => Except.error PyExc.invalidKey

/-- Model of `get_public_key` (auth.py lines 43-65): `jwt.get_unverified_header`
raises `jwt.DecodeError` on a malformed token; a missing or empty `kid`
(`if not kid:`) raises `HTTPException(401)`; a `kid` absent from the JWKS
dict raises `HTTPException(401)`; otherwise the JWK is converted. -/
def get_public_key (tok : Token) (jwks : Cache) : Except PyExc String :=
  match tok with
  | .malformed msg => Except.error (PyExc.invalidToken msg)
  | .wellFormed kid? _ _ =>
      match kid? with
      | none => Except.error (PyExc.httpException 401 "Token missing \x27kid\x27 in header")
      | some kid =>
          if kid = "" then
            Except.error (PyExc.httpException 401 "Token missing \x27kid\x27 in header")
          else
            match dictGet jwks kid with
            | none => Except.error (PyExc.httpException 401 ("Public key not found for kid: " ++ kid))
            | some jwk => from_jwk jwk

/-- Model of `jwt.decode` with `verify_signature` and `verify_exp` disabled (auth.py
lines 94-98, development mode): decodes the body of any syntactically
well-formed token, checking neither signature, expiry, audience nor issuer. -/
def jwt_decode_unverified (tok : Token) : Except PyExc Claims :=
  match tok with
  | .malformed msg => Except.error (PyExc.invalidToken msg)
  | .wellFormed _ body _ => Except.ok body

/-- Model of `jwt.decode` with full verification (auth.py lines 111-121), given the
resolved public key, the `audience` argument value and the current time:
signature, then expiry, then audience, in the order used by PyJWT.  In the source this
call is never reached: evaluating the `audience=settings.azure_client_id`
argument raises first (see `get_current_user`). -/
def jwt_decode_full (tok : Token) (pem : String) (audience : String) (now : Int) :
    Except PyExc Claims :=
  match tok with
  | .malformed msg => Except.error (PyExc.invalidToken msg)
  | .wellFormed _ body sigKey =>
      if sigKey ≠ some pem then
        Except.error (PyExc.invalidToken "Signature verification failed")
      else
        match body.exp with
        | some e =>
            if e < now then Except.error PyExc.expiredSignature
            else
              match body.aud with
              | none => Except.error (PyExc.invalidToken "Token is missing the \x22aud\x22 claim")
              | some a => if a = audience then Except.ok body else Except.error PyExc.invalidAudience
        | none =>
            match body.aud with
            | none => Except.error (PyExc.invalidToken "Token is missing the \x22aud\x22 claim")
            | some a => if a = audience then Except.ok body else Except.error PyExc.invalidAudience

/-- Which `except` clause of auth.py lines 155-184 produced the response. -/
inductive ExceptBranch where
  /-- Branch `except jwt.ExpiredSignatureError` (lines 155-160) -/
  | expiredBranch
  /-- Branch `except jwt.InvalidTokenError` (lines 167-172) -/
  | invalidTokenBranch
  /-- Branch `except httpx.HTTPError` (lines 173-178) -/
  | jwksFetchBranch
  /-- Branch `except Exception` (lines 179-184) -/
  | catchAllBranch
  deriving Repr, DecidableEq

/-- Outcome of a `get_current_user` call. -/
inductive AuthOutcome where
  /-- the `User` returned on success -/
  | user (u : User)
  /-- the `HTTPException` raised by an `except` clause -/
  | httpError (code : Nat) (branch : ExceptBranch) (detail : String)
  /-- an exception escaped the handler itself -/
  | uncaught (e : PyExc)
  deriving Repr, DecidableEq

/-- The `except` chain of `get_current_user` (auth.py lines 155-184),
checked top-down by `isinstance`.  `ExpiredSignatureError` maps to
401 "Token has expired"; the `InvalidAudienceError` handler itself evaluates
`settings.azure_client_id` in its f-string detail and therefore raises
`AttributeError` out of the handler; `InvalidTokenError` maps to 401;
`httpx.HTTPError` maps to 500; everything else — including `HTTPException`s
raised inside the `try` block, `AttributeError`, `ValueError` and
`InvalidKeyError` — is caught by `except Exception` and re-raised as
500 "Authentication error: {str(e)}". -/
def dispatchExc : PyExc → AuthOutcome
  | PyExc.expiredSignature =>
      AuthOutcome.httpError 401 ExceptBranch.expiredBranch "Token has expired"
  | PyExc.invalidAudience => AuthOutcome.uncaught (PyExc.attributeError settingsAttrMsg)
  | PyExc.invalidToken msg =>
      AuthOutcome.httpError 401 ExceptBranch.invalidTokenBranch ("Invalid token: " ++ msg)
  | PyExc.httpxError =>
      AuthOutcome.httpError 500 ExceptBranch.jwksFetchBranch
        "Failed to validate token - could not fetch JWKS"
  | e => AuthOutcome.httpError 500 ExceptBranch.catchAllBranch ("Authentication error: " ++ e.str)

/-- Result of a `get_current_user` call: outcome, final cache state, and the
number of HTTP fetches performed during the call. -/
structure CallResult where
  outcome : AuthOutcome
  cache : Cache
  fetches : Nat
  deriving Repr, DecidableEq

/-- Model of `get_current_user` (auth.py lines 68-184).  In development mode the
token body is decoded without verification.  In full-verification mode the
JWKS is fetched, the public key resolved, and then — before `jwt.decode`
can run — the argument expression `settings.azure_client_id` is evaluated;
`azure_client_id` is not a declared field of `Settings` (the declared field
is `azure_ad_client_id`), so this lookup raises `AttributeError`.  The
subsequent decode and the issuer check of lines 123-132 are modelled
faithfully but unreachable.  Every exception is routed through
`dispatchExc`. -/
def get_current_user (s : Settings) (cache : Cache) (fetch : FetchResult)
    (tok : Token) (now : Int) : CallResult :=
  if s.skip_token_verification then
    match jwt_decode_unverified tok with
    | Except.error e => ⟨dispatchExc e, cache, 0⟩
    | Except.ok decoded => ⟨AuthOutcome.user (mkUserClaims decoded).to_user, cache, 0⟩
  else
    let jr := get_jwks cache fetch
    match jr.result with
    | Except.error e => ⟨dispatchExc e, jr.cache, jr.fetches⟩
    | Except.ok jwks =>
        match get_public_key tok jwks with
        | Except.error e => ⟨dispatchExc e, jr.cache, jr.fetches⟩
        | Except.ok pem =>
            match s.getattrStr "azure_client_id" with
            | none => ⟨dispatchExc (PyExc.attributeError settingsAttrMsg), jr.cache, jr.fetches⟩
            | some audience =>
                match jwt_decode_full tok pem audience now with
                | Except.error e => ⟨dispatchExc e, jr.cache, jr.fetches⟩
                | Except.ok decoded =>
                    let iss := decoded.iss.getD ""
                    if iss = s.get_issuer ∨ iss = s.get_issuer_v1 then
                      ⟨AuthOutcome.user (mkUserClaims decoded).to_user, jr.cache, jr.fetches⟩
                    else
                      ⟨dispatchExc (PyExc.httpException 401
                        ("Invalid issuer. Expected " ++ s.get_issuer ++ " or " ++
                          s.get_issuer_v1 ++ ", got " ++ iss)), jr.cache, jr.fetches⟩

/-! ## Concrete fixtures -/

/-- Settings of the spec scenario: tenant `tenant1`, client id `client1`,
full verification. -/
def s1 : Settings := { azure_ad_tenant_id := "tenant1", azure_ad_client_id := "client1" }

/-- Settings with `skip_token_verification` enabled (trusted-dev mode). -/
def s1dev : Settings := { s1 with skip_token_verification := true }

/-- RSA JWK with kid `abc` whose material converts to the public key
`PEM_abc`. -/
def jwkAbc : Jwk := { kid := some "abc", material := some "PEM_abc" }

/-- Fetch outcome delivering exactly the key set containing `jwkAbc`. -/
def fetchAbc : FetchResult := FetchResult.ok [JwkEntry.obj jwkAbc]

/-- Token of the spec scenario: header kid `abc`, signed by the private key
matching `jwkAbc`, audience `client1`, v2 issuer for `tenant1`, future
expiry (with current time 1000000), oid `u1`, email `a@b.com`. -/
def tok1 : Token :=
  Token.wellFormed (some "abc")
    { aud := some "client1"
      iss := some "https://login.microsoftonline.com/tenant1/v2.0"
      exp := some 2000000
      oid := some "u1"
      email := some "a@b.com" }
    (some "PEM_abc")

/-- Same as `tok1` but with `exp` strictly in the past relative to current
time 1000000; the signature is valid. -/
def tokExpired : Token :=
  Token.wellFormed (some "abc")
    { aud := some "client1"
      iss := some "https://login.microsoftonline.com/tenant1/v2.0"
      exp := some 900000
      oid := some "u1" }
    (some "PEM_abc")

/-- Same as `tok1` but with an issuer matching neither accepted template. -/
def tokBadIss : Token :=
  Token.wellFormed (some "abc")
    { aud := some "client1"
      iss := some "https://evil.example/"
      exp := some 2000000
      oid := some "u1" }
    (some "PEM_abc")

/-- Same as `tok1` but with the legacy v1 issuer for `tenant1`. -/
def tokV1Iss : Token :=
  Token.wellFormed (some "abc")
    { aud := some "client1"
      iss := some "https://sts.windows.net/tenant1/"
      exp := some 2000000
      oid := some "u1" }
    (some "PEM_abc")

/-- Well-formed token whose kid `zz` appears in no key set. -/
def tokZZ : Token := Token.wellFormed (some "zz") {} none

/-! ## Helper lemmas -/

/-- No branch of the `except` chain returns a `User`. -/
theorem dispatchExc_ne_user (e : PyExc) (u : User) :
    dispatchExc e ≠ AuthOutcome.user u := by
  cases e <;> simp [dispatchExc]

/-- Reading `azure_client_id` on any `Settings` instance raises
`AttributeError`: it is not a declared field. -/
theorem getattrStr_azure_client_id (s : Settings) :
    s.getattrStr "azure_client_id" = none := rfl

/-! ## Claim theorems -/

/-- C1: the spec scenario — key set containing the RSA key `abc`, token
signed by the matching private key with audience `client1`, v2 issuer for
tenant `tenant1`, future expiry, oid `u1`, email `a@b.com`, full
verification — is claimed to make `get_current_user` return an Identity
with subject id `u1` and email `a@b.com`.  The code instead evaluates
`settings.azure_client_id`, an undeclared field, and the resulting
`AttributeError` is re-raised by the catch-all handler as HTTP 500:
authentication never succeeds on this input. -/
theorem scenario_authenticate_internal_error :
    (get_current_user s1 [] fetchAbc tok1 1000000).outcome =
      AuthOutcome.httpError 500 ExceptBranch.catchAllBranch
        ("Authentication error: " ++ settingsAttrMsg) := rfl

/-- C2 counterexample: the claim says every full-verification call raises
through the catch-all branch as a 500 internal error.  A syntactically
malformed token refutes it: `jwt.get_unverified_header` raises
`jwt.DecodeError`, which is caught by the `except jwt.InvalidTokenError`
clause and surfaces as HTTP 401, not 500, and `settings.azure_client_id`
is never evaluated on this path. -/
theorem full_mode_malformed_token_401 :
    (get_current_user s1 [("abc", jwkAbc)] fetchAbc
        (Token.malformed "Not enough segments") 0).outcome =
      AuthOutcome.httpError 401 ExceptBranch.invalidTokenBranch
        "Invalid token: Not enough segments" := rfl

/-- C2 (amended): in full-verification mode `get_current_user` never
returns an Identity, and every call that reaches the `jwt.decode` step
(i.e. on which JWKS retrieval and public-key resolution succeed) evaluates
`settings.azure_client_id` — not a declared field of `Settings`, whose
declared field is `azure_ad_client_id` — and raises through the catch-all
branch as an internal error with HTTP status 500.  Calls failing earlier
surface their earlier errors instead. -/
theorem full_mode_never_returns_identity (s : Settings) (cache : Cache)
    (fetch : FetchResult) (tok : Token) (now : Int)
    (hs : s.skip_token_verification = false) :
    (∀ u : User, (get_current_user s cache fetch tok now).outcome ≠ AuthOutcome.user u) ∧
    (∀ (jwks : Cache) (pem : String),
      (get_jwks cache fetch).result = Except.ok jwks →
      get_public_key tok jwks = Except.ok pem →
      (get_current_user s cache fetch tok now).outcome =
        AuthOutcome.httpError 500 ExceptBranch.catchAllBranch
          ("Authentication error: " ++ settingsAttrMsg)) := by
  constructor
  · intro u
    unfold get_current_user
    simp only [hs, Bool.false_eq_true, if_false]
    cases hres : (get_jwks cache fetch).result with
    | error e => simp [hres, dispatchExc_ne_user]
    | ok jwks =>
        cases hpk : get_public_key tok jwks with
        | error e => simp [hres, hpk, dispatchExc_ne_user]
        | ok pem => simp [hres, hpk, getattrStr_azure_client_id, dispatchExc_ne_user]
  · intro jwks pem h1 h2
    unfold get_current_user
    simp only [hs, Bool.false_eq_true, if_false]
    simp [h1, h2, getattrStr_azure_client_id, dispatchExc, PyExc.str]

/-- C2 witness: a concrete full-verification call on which key resolution
succeeds ends in the catch-all 500. -/
theorem full_mode_never_returns_identity_witness :
    (get_current_user s1 [("abc", jwkAbc)] fetchAbc tokExpired 1000000).outcome =
      AuthOutcome.httpError 500 ExceptBranch.catchAllBranch
        ("Authentication error: " ++ settingsAttrMsg) :=
  (full_mode_never_returns_identity s1 [("abc", jwkAbc)] fetchAbc tokExpired 1000000
    rfl).2 [("abc", jwkAbc)] "PEM_abc" rfl rfl

/-- C4: a token whose `exp` (900000) is strictly before the current time
(1000000), signed by the key the cache resolves for it, is claimed to yield
401 "Token has expired" in full-verification mode.  The code never reaches
expiry verification: evaluating the `audience=settings.azure_client_id`
argument of `jwt.decode` raises `AttributeError` first, so the call ends in
the catch-all 500 and the dedicated `except jwt.ExpiredSignatureError`
branch is dead code. -/
theorem expired_token_internal_error :
    (get_current_user s1 [] fetchAbc tokExpired 1000000).outcome =
      AuthOutcome.httpError 500 ExceptBranch.catchAllBranch
        ("Authentication error: " ++ settingsAttrMsg) ∧
    (get_current_user s1 [] fetchAbc tokExpired 1000000).outcome ≠
      AuthOutcome.httpError 401 ExceptBranch.expiredBranch "Token has expired" := by
  exact ⟨rfl, by decide⟩

/-- C5: in full-verification mode the issuer check of auth.py lines 123-132
is claimed to accept the two templated issuer strings and reject any other
issuer with `InvalidIssuer`.  The check is unreachable: both a token with a
foreign issuer and a token with the accepted legacy v1 issuer end in the
catch-all 500 raised while evaluating `settings.azure_client_id`, before
the issuer comparison can run. -/
theorem issuer_check_unreachable :
    (get_current_user s1 [] fetchAbc tokBadIss 1000000).outcome =
      AuthOutcome.httpError 500 ExceptBranch.catchAllBranch
        ("Authentication error: " ++ settingsAttrMsg) ∧
    (get_current_user s1 [] fetchAbc tokV1Iss 1000000).outcome =
      AuthOutcome.httpError 500 ExceptBranch.catchAllBranch
        ("Authentication error: " ++ settingsAttrMsg) := ⟨rfl, rfl⟩

/-- C3 counterexample: the claim says a call with an unknown kid performs
exactly one refresh fetch before returning `UnknownSigningKey`, and that a
second call with the same unknown kid performs exactly one more.  In the
code the first call (empty cache) performs the one initial population
fetch, but the second call performs zero fetches — the populated cache is
returned as-is, there is no refresh-on-miss — and the not-found condition
surfaces as a catch-all 500, not as a 401 `UnknownSigningKey`. -/
theorem unknown_kid_second_call_no_fetch :
    (get_current_user s1 [] fetchAbc tokZZ 0).fetches = 1 ∧
    (get_current_user s1 (get_current_user s1 [] fetchAbc tokZZ 0).cache
        fetchAbc tokZZ 0).fetches = 0 ∧
    (get_current_user s1 (get_current_user s1 [] fetchAbc tokZZ 0).cache
        fetchAbc tokZZ 0).outcome =
      AuthOutcome.httpError 500 ExceptBranch.catchAllBranch
        "Authentication error: 401: Public key not found for kid: zz" :=
  ⟨rfl, rfl, rfl⟩

/-- C3 (amended): once the cache is populated, a call whose token carries a
kid absent from it performs zero fetches (no refresh is attempted, so the
not-found result is decided against the stale cache), leaves the cache
unchanged, and ends in the catch-all 500 — the `HTTPException(401)` raised
for the missing key inside the `try` block is swallowed by
`except Exception`. -/
theorem unknown_kid_no_refresh (s : Settings) (cache : Cache)
    (fetch : FetchResult) (b : Claims) (sk : Option String) (kid : String)
    (now : Int)
    (hs : s.skip_token_verification = false)
    (hc : cache.isEmpty = false)
    (hk : kid ≠ "")
    (hget : dictGet cache kid = none) :
    (get_current_user s cache fetch (Token.wellFormed (some kid) b sk) now).fetches = 0 ∧
    (get_current_user s cache fetch (Token.wellFormed (some kid) b sk) now).cache = cache ∧
    ∃ d : String,
      (get_current_user s cache fetch (Token.wellFormed (some kid) b sk) now).outcome =
        AuthOutcome.httpError 500 ExceptBranch.catchAllBranch d := by
  have hjwks : get_jwks cache fetch = ⟨Except.ok cache, cache, 0⟩ := by
    simp [get_jwks, hc]
  have hpk : get_public_key (Token.wellFormed (some kid) b sk) cache =
      Except.error (PyExc.httpException 401 ("Public key not found for kid: " ++ kid)) := by
    simp [get_public_key, hk, hget]
  refine ⟨?_, ?_, ?_⟩ <;>
    simp [get_current_user, hs, hjwks, hpk, dispatchExc, PyExc.str]

/-- C3 witness: concrete populated cache, concrete unknown kid. -/
theorem unknown_kid_no_refresh_witness :
    (get_current_user s1 [("abc", jwkAbc)] fetchAbc tokZZ 5).fetches = 0 ∧
    (get_current_user s1 [("abc", jwkAbc)] fetchAbc tokZZ 5).cache = [("abc", jwkAbc)] ∧
    ∃ d : String,
      (get_current_user s1 [("abc", jwkAbc)] fetchAbc tokZZ 5).outcome =
        AuthOutcome.httpError 500 ExceptBranch.catchAllBranch d :=
  unknown_kid_no_refresh s1 [("abc", jwkAbc)] fetchAbc {} none "zz" 5
    rfl rfl (by decide) rfl

/-- C6: in trusted-dev mode every syntactically well-formed token is
accepted — its signature is not checked against any key and its expiry is
not compared with the current time, neither of which the decoding step even
consults — and the returned Identity is the projection of the decoded body;
a syntactically malformed token is rejected with a 401 error. -/
theorem dev_mode_decodes_body (s : Settings) (cache : Cache)
    (fetch : FetchResult) (now : Int) (kid : Option String) (b : Claims)
    (sk : Option String) (msg : String)
    (hs : s.skip_token_verification = true) :
    (get_current_user s cache fetch (Token.wellFormed kid b sk) now).outcome =
      AuthOutcome.user (mkUserClaims b).to_user ∧
    (get_current_user s cache fetch (Token.malformed msg) now).outcome =
      AuthOutcome.httpError 401 ExceptBranch.invalidTokenBranch
        ("Invalid token: " ++ msg) := by
  constructor <;>
    simp [get_current_user, hs, jwt_decode_unverified, dispatchExc, PyExc.str]

/-- C6 witness: a token with `exp = -5` (long past) and a signature matching
no key is accepted in trusted-dev mode; a malformed token is rejected 401. -/
theorem dev_mode_decodes_body_witness :
    (get_current_user s1dev [] fetchAbc
        (Token.wellFormed (some "abc")
          { oid := some "dev", aud := some "other-client"
            iss := some "https://nonsense.example/", exp := some (-5) }
          none) 7).outcome =
      AuthOutcome.user (mkUserClaims
        { oid := some "dev", aud := some "other-client"
          iss := some "https://nonsense.example/", exp := some (-5) }).to_user ∧
    (get_current_user s1dev [] fetchAbc (Token.malformed "Not enough segments") 7).outcome =
      AuthOutcome.httpError 401 ExceptBranch.invalidTokenBranch
        "Invalid token: Not enough segments" :=
  dev_mode_decodes_body s1dev [] fetchAbc 7 (some "abc")
    { oid := some "dev", aud := some "other-client"
      iss := some "https://nonsense.example/", exp := some (-5) }
    none "Not enough segments" rfl

/-- C7 counterexample: the claim says a fetch failure from a malformed
payload surfaces as `KeySetUnavailable` (in the code, the jwks-fetch 500)
and never leaves the cache partially populated.  A payload whose `keys`
list holds a valid entry followed by a non-object entry refutes both
halves: `key.get("kid")` raises `AttributeError` mid-loop, the call ends in
the generic catch-all 500 (not the jwks-fetch branch), and the cache is
left holding exactly the entry processed before the failure. -/
theorem fetch_partial_cache :
    (get_current_user s1 [] (FetchResult.ok [JwkEntry.obj jwkAbc, JwkEntry.nonDict])
        tokZZ 0).outcome =
      AuthOutcome.httpError 500 ExceptBranch.catchAllBranch
        ("Authentication error: " ++ strGetAttrMsg) ∧
    (get_current_user s1 [] (FetchResult.ok [JwkEntry.obj jwkAbc, JwkEntry.nonDict])
        tokZZ 0).cache = [("abc", jwkAbc)] := ⟨rfl, rfl⟩

/-- C7 (amended): a fetch happens only from an empty cache, so a successful
fetch leaves the cache equal to exactly the keys indexed from the fresh
response; network errors and non-success statuses raise `httpx.HTTPError`
with the cache left empty (they surface as the jwks-fetch 500); but a
malformed JSON body raises `ValueError` (surfacing as the generic catch-all
500, cache unchanged), and a payload containing a non-object entry aborts
indexing midway, leaving the cache partially populated with the entries
processed before the failure. -/
theorem jwks_fetch_cache_behavior (entries entries2 : List JwkEntry)
    (c cp : Cache)
    (h1 : cacheKeys [] entries = Except.ok c)
    (h2 : cacheKeys [] entries2 = Except.error cp) :
    (get_jwks [] (FetchResult.ok entries)).result = Except.ok c ∧
    (get_jwks [] (FetchResult.ok entries)).cache = c ∧
    get_jwks [] FetchResult.networkError = ⟨Except.error PyExc.httpxError, [], 1⟩ ∧
    get_jwks [] FetchResult.statusError = ⟨Except.error PyExc.httpxError, [], 1⟩ ∧
    get_jwks [] FetchResult.malformedJson = ⟨Except.error PyExc.valueError, [], 1⟩ ∧
    (get_jwks [] (FetchResult.ok entries2)).result =
      Except.error (PyExc.attributeError strGetAttrMsg) ∧
    (get_jwks [] (FetchResult.ok entries2)).cache = cp := by
  refine ⟨?_, ?_, rfl, rfl, rfl, ?_, ?_⟩ <;> simp [get_jwks, h1, h2]

/-- C7 witness: one convertible entry indexes fully; the same entry followed
by a non-object entry leaves exactly the first one in the cache. -/
theorem jwks_fetch_cache_behavior_witness :
    (get_jwks [] (FetchResult.ok [JwkEntry.obj jwkAbc])).cache = [("abc", jwkAbc)] ∧
    (get_jwks [] (FetchResult.ok [JwkEntry.obj jwkAbc, JwkEntry.nonDict])).cache =
      [("abc", jwkAbc)] := by
  have h := jwks_fetch_cache_behavior [JwkEntry.obj jwkAbc]
    [JwkEntry.obj jwkAbc, JwkEntry.nonDict] [("abc", jwkAbc)] [("abc", jwkAbc)] rfl rfl
  exact ⟨h.2.1, h.2.2.2.2.2.2⟩

/-- C8 counterexample: the claim says key-material conversion failure is
scoped to the single key — the KeyStore skips the failing entry while
indexing and the failure does not take down the whole call.  In the code
the KeyStore indexes the inconvertible entry anyway (first conjunct), and a
call whose token resolves to it fails wholly: `RSAAlgorithm.from_jwk`
raises `InvalidKeyError`, which no specific `except` clause catches, so the
call ends in the generic catch-all 500 (second conjunct). -/
theorem key_conversion_fails_whole_call :
    cacheKeys [] [JwkEntry.obj { kid := some "bad", material := none }] =
      Except.ok [("bad", { kid := some "bad", material := none })] ∧
    (get_current_user s1
        [("abc", jwkAbc), ("bad", { kid := some "bad", material := none })]
        fetchAbc (Token.wellFormed (some "bad") {} none) 0).outcome =
      AuthOutcome.httpError 500 ExceptBranch.catchAllBranch
        "Authentication error: Invalid key" := ⟨rfl, rfl⟩

/-- C8 (amended): key material is not converted while indexing — every
entry with a non-empty kid is cached regardless of convertibility — and
conversion happens per verification call when the token resolves to an
entry: a call resolving to an inconvertible entry fails wholly with the
generic catch-all 500, while public-key resolution for a token resolving
to a convertible entry succeeds, unaffected by inconvertible entries
elsewhere in the cache. -/
theorem key_conversion_per_call (s : Settings) (cache : Cache)
    (fetch : FetchResult) (b : Claims) (sk : Option String) (kid : String)
    (now : Int) (jwk : Jwk)
    (hs : s.skip_token_verification = false)
    (hc : cache.isEmpty = false)
    (hk : kid ≠ "")
    (hget : dictGet cache kid = some jwk) :
    (jwk.material = none →
      (get_current_user s cache fetch (Token.wellFormed (some kid) b sk) now).outcome =
        AuthOutcome.httpError 500 ExceptBranch.catchAllBranch
          "Authentication error: Invalid key") ∧
    (∀ pem : String, jwk.material = some pem →
      get_public_key (Token.wellFormed (some kid) b sk) cache = Except.ok pem) := by
  have hjwks : get_jwks cache fetch = ⟨Except.ok cache, cache, 0⟩ := by
    simp [get_jwks, hc]
  constructor
  · intro hm
    simp [get_current_user, hs, hjwks, get_public_key, hk, hget, from_jwk, hm,
      dispatchExc, PyExc.str]
  · intro pem hm
    simp [get_public_key, hk, hget, from_jwk, hm]

/-- C8 witness: in a cache holding both a convertible key `abc` and an
inconvertible key `bad`, a token resolving to `bad` ends in the catch-all
500 and a token resolving to `abc` obtains the public key. -/
theorem key_conversion_per_call_witness :
    (get_current_user s1
        [("abc", jwkAbc), ("bad", { kid := some "bad", material := none })]
        fetchAbc (Token.wellFormed (some "bad") { oid := some "x" } none) 3).outcome =
      AuthOutcome.httpError 500 ExceptBranch.catchAllBranch
        "Authentication error: Invalid key" ∧
    get_public_key (Token.wellFormed (some "abc") { oid := some "x" } none)
        [("abc", jwkAbc), ("bad", { kid := some "bad", material := none })] =
      Except.ok "PEM_abc" := by
  constructor
  · exact (key_conversion_per_call s1
      [("abc", jwkAbc), ("bad", { kid := some "bad", material := none })]
      fetchAbc { oid := some "x" } none "bad" 3
      { kid := some "bad", material := none }
      rfl rfl (by decide) rfl).1 rfl
  · exact (key_conversion_per_call s1
      [("abc", jwkAbc), ("bad", { kid := some "bad", material := none })]
      fetchAbc { oid := some "x" } none "abc" 3 jwkAbc
      rfl rfl (by decide) rfl).2 "PEM_abc" rfl

/-- Body whose email claim is present but empty, while the preferred
username is present and non-empty. -/
def c9body : Claims :=
  { oid := some "u1", email := some "", preferred_username := some "pu",
    tid := some "t1" }

/-- C9 counterexample: the claim says the projected email equals the email
claim (falling back only when it is absent).  A body carrying the email
claim as the empty string refutes this: Python `self.email or
self.preferred_username or ""` treats `""` as falsy, so the projection
returns the preferred username `pu` instead of the email claim `""`. -/
theorem projection_email_empty_falls_back :
    c9body.email = some "" ∧ ((mkUserClaims c9body).to_user).email = "pu" :=
  ⟨rfl, rfl⟩

/-- Written from the amended claim wording, for comparison with the code:
the projected email is the email claim when present and non-empty,
otherwise the preferred-username claim when present and non-empty,
otherwise the empty string. -/
def specProjectedEmail (d : Claims) : String :=
  match d.email with
  | some e => if e = "" then specPreferredFallback d else e
  | none => specPreferredFallback d
where
  specPreferredFallback (d : Claims) : String :=
    match d.preferred_username with
    | some p => if p = "" then "" else p
    | none => ""

/-- C9 (amended): projection — the composition of the `UserClaims`
construction of auth.py lines 137-149 with `UserClaims.to_user` — never
fails (it is a total function), and produces: subject id equal to the oid
claim or the sentinel `unknown` when absent; email equal to the email claim
when present and non-empty, otherwise preferred_username when present and
non-empty, otherwise the empty string; tenant id equal to the tid claim or
`unknown` when absent; roles and groups defaulting to empty lists when
absent; issued-at and expires-at taken from the epoch-second claims,
defaulting to epoch zero when absent. -/
theorem projection_field_values (d : Claims) :
    ((mkUserClaims d).to_user).id = d.oid.getD "unknown" ∧
    ((mkUserClaims d).to_user).email = specProjectedEmail d ∧
    ((mkUserClaims d).to_user).tenant_id = d.tid.getD "unknown" ∧
    ((mkUserClaims d).to_user).roles = d.roles.getD [] ∧
    ((mkUserClaims d).to_user).groups = d.groups.getD [] ∧
    ((mkUserClaims d).to_user).issued_at = d.iat.getD 0 ∧
    ((mkUserClaims d).to_user).expires_at = d.exp.getD 0 := by
  refine ⟨rfl, ?_, rfl, rfl, rfl, rfl, rfl⟩
  by_cases hee : d.email = some ""
  · cases hp : d.preferred_username <;>
      simp [mkUserClaims, UserClaims.to_user, pyOrStr, specProjectedEmail,
        specProjectedEmail.specPreferredFallback, hee, hp]
  · cases he : d.email with
    | none =>
        cases hp : d.preferred_username <;>
          simp [mkUserClaims, UserClaims.to_user, pyOrStr, specProjectedEmail,
            specProjectedEmail.specPreferredFallback, he, hp]
    | some e =>
        have hne : e ≠ "" := by
          intro h
          exact hee (by rw [he, h])
        simp [mkUserClaims, UserClaims.to_user, pyOrStr, specProjectedEmail,
          specProjectedEmail.specPreferredFallback, he, hne]

/-- C10: in trusted-dev mode no audience or issuer validation happens —
for every syntactically well-formed token, whatever the values or absence
of its aud and iss claims, `get_current_user` returns the Identity
projected from the body, so it can never produce an audience or issuer
rejection. -/
theorem dev_mode_ignores_audience_issuer (s : Settings) (cache : Cache)
    (fetch : FetchResult) (now : Int) (kid : Option String) (b : Claims)
    (sk : Option String) (audv issv : Option String)
    (hs : s.skip_token_verification = true) :
    (get_current_user s cache fetch
        (Token.wellFormed kid { b with aud := audv, iss := issv } sk) now).outcome =
      AuthOutcome.user (mkUserClaims { b with aud := audv, iss := issv }).to_user := by
  simp [get_current_user, hs, jwt_decode_unverified]

/-- C10 witness: a token whose audience names a different client and whose
issuer matches neither accepted template is still accepted in trusted-dev
mode. -/
theorem dev_mode_ignores_audience_issuer_witness :
    (get_current_user s1dev [] fetchAbc
        (Token.wellFormed none
          { aud := some "not-the-client", iss := some "https://evil.example/x" }
          none) 0).outcome =
      AuthOutcome.user (mkUserClaims
        { aud := some "not-the-client", iss := some "https://evil.example/x" }).to_user :=
  dev_mode_ignores_audience_issuer s1dev [] fetchAbc 0 none {} none
    (some "not-the-client") (some "https://evil.example/x") rfl

end AuthCore
